import Mathlib

/-!
Shallow embedding of `linkedin_decision_maker_extractor.py`:
the request executor (`_make_request`), the single-page accessor
(`get_company_employees`), the pagination walker
(`get_all_company_employees`), the title classifier
(`filter_decision_makers`) and the orchestrator
(`extract_decision_makers`), together with theorems about them.
-/

namespace LinkedInExtractor

/-- A dynamic (JSON-like) Python value, as passed around by the extractor. -/
inductive PyVal where
  | vNone : PyVal
  | vBool : Bool → PyVal
  | vInt : Int → PyVal
  | vStr : String → PyVal
  | vList : List PyVal → PyVal
  | vDict : List (String × PyVal) → PyVal

/-- Python exceptions that the embedded code can raise. -/
inductive PyError where
  | attributeError : String → PyError
  | valueError : String → PyError
  | httpError : Nat → PyError
  | requestError : String → PyError
  | runtimeError : String → PyError
deriving DecidableEq

/-- A person record: a Python dict from field names to values. -/
abbrev Person := List (String × PyVal)

/-- `d.get(k, dflt)` on a dict represented as an association list. -/
def pyDictGet (d : Person) (k : String) (dflt : PyVal) : PyVal :=
  match d.find? (fun p => p.1 == k) with
  | some p => p.2
  | none => dflt

/-- `v.get(k, dflt)` on an arbitrary value: raises AttributeError unless a dict. -/
def pyGet (v : PyVal) (k : String) (dflt : PyVal) : Except PyError PyVal :=
  match v with
  | PyVal.vDict d => Except.ok (pyDictGet d k dflt)
  | _ => Except.error (PyError.attributeError "get")

/-- Python truthiness of a value. -/
def pyTruthy : PyVal → Bool
  | PyVal.vNone => false
  | PyVal.vBool b => b
  | PyVal.vInt n => n != 0
  | PyVal.vStr s => !s.isEmpty
  | PyVal.vList l => !l.isEmpty
  | PyVal.vDict d => !d.isEmpty

/-- Whether `needle` occurs at the start of `hay`. -/
def startsList : List Char → List Char → Bool
  | [], _ => true
  | _ :: _, [] => false
  | a :: as, b :: bs => a == b && startsList as bs

/-- Whether `needle` occurs somewhere in `hay` (substring on char lists). -/
def containsSub (hay needle : List Char) : Bool :=
  match hay with
  | [] => needle.isEmpty
  | _ :: t => startsList needle hay || containsSub t needle

/-- Python's `needle in hay` on strings. -/
def pyIn (needle hay : String) : Bool :=
  containsSub hay.toList needle.toList

/-- ASCII lower-casing of one character. -/
def charLower (c : Char) : Char :=
  if 'A' ≤ c ∧ c ≤ 'Z' then Char.ofNat (c.toNat + 32) else c

/-- ASCII upper-casing of one character. -/
def charUpper (c : Char) : Char :=
  if 'a' ≤ c ∧ c ≤ 'z' then Char.ofNat (c.toNat - 32) else c

/-- Python `s.lower()`. -/
def pyLowerStr (s : String) : String :=
  ⟨s.toList.map charLower⟩

/-- Python `s.upper()`. -/
def pyUpperStr (s : String) : String :=
  ⟨s.toList.map charUpper⟩

/-! ### Title classifier: `filter_decision_makers` (lines 193-218) -/

/-- The fixed decision-maker vocabulary, in source order (lines 204-207). -/
def decision_maker_titles : List String :=
  ["CEO", "Chief", "President", "Director", "VP", "Vice President",
   "Head of", "Manager", "Founder", "Owner", "Partner", "Executive"]

/-- `employee.get("title", "")` (line 211 before `.lower()`). -/
def titleVal (e : Person) : PyVal :=
  pyDictGet e "title" (PyVal.vStr "")

/-- Whether the record has a `"title"` key at all. -/
def hasTitleField (e : Person) : Bool :=
  (e.find? (fun p => p.1 == "title")).isSome

/-- Whether `titleVal e` is a string (so that `.lower()` succeeds). -/
def isStrTitle (e : Person) : Bool :=
  match titleVal e with
  | PyVal.vStr _ => true
  | _ => false

/-- The title as a string, `""` when the field is absent (junk value `""` otherwise). -/
def strTitle (e : Person) : String :=
  match titleVal e with
  | PyVal.vStr s => s
  | _ => ""

/-- Python `.lower()` on a dynamic value: AttributeError on a non-string. -/
def pyLower : PyVal → Except PyError String
  | PyVal.vStr s => Except.ok (pyLowerStr s)
  | _ => Except.error (PyError.attributeError "lower")

/-- The inner keyword loop of lines 212-215: test vocabulary terms in order,
stopping at the first match (`t` is the already-lowered title). -/
def firstMatch (t : String) : List String → Bool
  | [] => false
  | d :: ds => if pyIn (pyLowerStr d) t then true else firstMatch t ds

/-- Whether an already-lowered title matches the vocabulary. -/
def titleMatches (t : String) : Bool :=
  firstMatch t decision_maker_titles

/-- `filter_decision_makers` (lines 193-218): for each record take
`employee.get("title", "").lower()` (which raises AttributeError on a
non-string title value) and keep the record when some vocabulary term,
lowered, is a substring of it. -/
def filter_decision_makers : List Person → Except PyError (List Person)
  | [] => Except.ok []
  | e :: rest =>
    match pyLower (titleVal e) with
    | Except.error err => Except.error err
    | Except.ok t =>
      match filter_decision_makers rest with
      | Except.error err => Except.error err
      | Except.ok tail =>
        Except.ok (if titleMatches t then e :: tail else tail)

/-- The claim's inclusion condition: the case-folded title contains some
case-folded vocabulary keyword as a substring. -/
def vocabHit (e : Person) : Bool :=
  decision_maker_titles.any (fun kw => pyIn (pyLowerStr kw) (pyLowerStr (strTitle e)))

/-! ### Request executor: `_make_request` (lines 45-112) -/

/-- A `requests` exception thrown by one transport attempt: either an
`HTTPError` carrying a status code (from `raise_for_status`, line 77) or
another `RequestException` (connection error, timeout, DNS; line 102). -/
inductive ReqErr where
  | http : Nat → ReqErr
  | transport : String → ReqErr
deriving DecidableEq

/-- The Python exception corresponding to a transport failure. -/
def toPyError : ReqErr → PyError
  | ReqErr.http n => PyError.httpError n
  | ReqErr.transport s => PyError.requestError s

/-- Outcome of one call to `_make_request`: a decoded body or a raised
exception. -/
inductive PyResult where
  | ok : PyVal → PyResult
  | raised : PyError → PyResult

/-- Observable trace of one `_make_request` call: the sleeps performed (in
order, in time-units), the number of transport attempts fired, and the
outcome. -/
structure RequestTrace where
  sleeps : List Nat
  calls : Nat
  result : PyResult

/-- The `for attempt in range(retry_attempts)` loop of lines 62-109: before
every attempt after the first, sleep `retry_delay * 2 ^ attempt`; dispatch on
`method.upper()`, raising ValueError (uncaught by the retry handlers) for
anything but GET/POST; on an `HTTPError` or other `RequestException` retry,
re-raising after the last attempt; the trailing RuntimeError of line 112 fires
only if the loop body never ran. -/
def attemptLoop (retry_attempts retry_delay : Nat) (method : String)
    (transport : Nat → Except ReqErr PyVal) :
    List Nat → List Nat → Nat → RequestTrace
  | [], sleeps, calls =>
    ⟨sleeps, calls, PyResult.raised (PyError.runtimeError "Request failed after retries")⟩
  | attempt :: rest, sleeps, calls =>
    let sleeps' := if attempt > 0 then sleeps ++ [retry_delay * 2 ^ attempt] else sleeps
    if pyUpperStr method == "GET" || pyUpperStr method == "POST" then
      match transport attempt with
      | Except.ok v => ⟨sleeps', calls + 1, PyResult.ok v⟩
      | Except.error e =>
        if attempt == retry_attempts - 1 then
          ⟨sleeps', calls + 1, PyResult.raised (toPyError e)⟩
        else
          attemptLoop retry_attempts retry_delay method transport rest sleeps' (calls + 1)
    else
      ⟨sleeps', calls, PyResult.raised (PyError.valueError method)⟩

/-- `_make_request`, parametrised by the per-attempt transport behaviour. -/
def make_request (retry_attempts retry_delay : Nat) (method : String)
    (transport : Nat → Except ReqErr PyVal) : RequestTrace :=
  attemptLoop retry_attempts retry_delay method transport
    (List.range retry_attempts) [] 0

/-! ### Single-page accessor: `get_company_employees` (lines 134-159) -/

/-- The `try` body of lines 154-156: propagate the executor's outcome and
extract `response.get("results", [])`. -/
def get_company_employees_body (r : Except PyError PyVal) :
    Except PyError PyVal :=
  match r with
  | Except.error e => Except.error e
  | Except.ok response => pyGet response "results" (PyVal.vList [])

/-- `get_company_employees`, as a function of the executor outcome `r` for
this page: the `except Exception` handler of lines 157-159 catches every
error, logs it, and returns `[]`. -/
def get_company_employees (r : Except PyError PyVal) : Except PyError PyVal :=
  match get_company_employees_body r with
  | Except.error _ => Except.ok (PyVal.vList [])
  | Except.ok v => Except.ok v

/-! ### Pagination walker: `get_all_company_employees` (lines 161-191) -/

/-- The `while True` loop of lines 176-189, parametrised by what the
single-page accessor returns for each page index and fuelled (the source loop
has no bound; every claim is conditioned on enough fuel). Returns the
accumulated roster and the number of page-fetch calls performed. -/
def get_all_loop (fetch : Nat → List Person) (page_size : Nat) :
    Nat → Nat → List Person → Nat → List Person × Nat
  | 0, _, acc, calls => (acc, calls)
  | fuel + 1, page, acc, calls =>
    let employees := fetch page
    if employees.isEmpty then (acc, calls + 1)
    else if employees.length < page_size then (acc ++ employees, calls + 1)
    else get_all_loop fetch page_size fuel (page + 1) (acc ++ employees) (calls + 1)

/-- `get_all_company_employees`: page index starts at 1, accumulator empty. -/
def get_all_company_employees (fetch : Nat → List Person)
    (page_size fuel : Nat) : List Person × Nat :=
  get_all_loop fetch page_size fuel 1 [] 0

/-! ### Orchestrator: `extract_decision_makers` (lines 220-249) -/

/-- The `try` body of lines 231-246, parametrised by the outcome of
`get_company_data` and by the behaviour of `get_all_company_employees` as a
function of the company id value. Successes and failures both carry the
number of employee-fetch calls and of filter calls made. -/
def extract_try (companyData : Except PyError PyVal)
    (fetchAll : PyVal → Except PyError (List Person)) :
    Except (PyError × Nat × Nat) (List Person × Nat × Nat) :=
  match companyData with
  | Except.error e => Except.error (e, 0, 0)
  | Except.ok cd =>
    match pyGet cd "id" PyVal.vNone with
    | Except.error e => Except.error (e, 0, 0)
    | Except.ok cid =>
      if pyTruthy cid then
        match fetchAll cid with
        | Except.error e => Except.error (e, 1, 0)
        | Except.ok employees =>
          match filter_decision_makers employees with
          | Except.error e => Except.error (e, 1, 1)
          | Except.ok dms => Except.ok (dms, 1, 1)
      else
        Except.ok ([], 0, 0)

/-- `extract_decision_makers`: the `except Exception` handler of lines
247-249 converts any raised error into an empty result. -/
def extract_decision_makers (companyData : Except PyError PyVal)
    (fetchAll : PyVal → Except PyError (List Person)) :
    List Person × Nat × Nat :=
  match extract_try companyData fetchAll with
  | Except.ok r => r
  | Except.error (_, nf, nfl) => ([], nf, nfl)

/-! ### Client state: `__init__` (lines 28-43) and state-threaded operations -/

/-- The instance attributes set by `__init__`. -/
structure ClientState where
  api_key : String
  base_url : String
  headers : List (String × String)
  retry_attempts : Nat
  retry_delay : Nat

/-- `__init__(api_key)` (lines 28-43). -/
def initClient (api_key : String) : ClientState :=
  { api_key := api_key
    base_url := "https://api.linkedin.com/v2"
    headers := [("Authorization", "Bearer " ++ api_key),
                ("Content-Type", "application/json")]
    retry_attempts := 3
    retry_delay := 2 }

/-- Header lookup on the client state. -/
def headerOf (st : ClientState) (k : String) : Option String :=
  (st.headers.find? (fun p => p.1 == k)).map (fun p => p.2)

/-- `_make_request` threaded through the instance state: the method body
reads `self.retry_attempts` and `self.retry_delay` and performs no
assignment to `self`. -/
def make_request_st (st : ClientState) (method : String)
    (transport : Nat → Except ReqErr PyVal) : ClientState × RequestTrace :=
  (st, make_request st.retry_attempts st.retry_delay method transport)

/-- `get_company_employees` threaded through the instance state. -/
def get_company_employees_st (st : ClientState)
    (r : Except PyError PyVal) : ClientState × Except PyError PyVal :=
  (st, get_company_employees r)

/-- `get_all_company_employees` threaded through the instance state
(page_size is the literal 100 of line 174). -/
def get_all_company_employees_st (st : ClientState)
    (fetch : Nat → List Person) (fuel : Nat) :
    ClientState × List Person × Nat :=
  (st, get_all_company_employees fetch 100 fuel)

/-- `filter_decision_makers` threaded through the instance state. -/
def filter_decision_makers_st (st : ClientState) (es : List Person) :
    ClientState × Except PyError (List Person) :=
  (st, filter_decision_makers es)

/-- `extract_decision_makers` threaded through the instance state. -/
def extract_decision_makers_st (st : ClientState)
    (companyData : Except PyError PyVal)
    (fetchAll : PyVal → Except PyError (List Person)) :
    ClientState × List Person × Nat × Nat :=
  (st, extract_decision_makers companyData fetchAll)

/-- `save_to_csv`/`save_to_json` threaded through the instance state: the
method bodies only read their arguments (the serialized payload is the
record list itself; file formatting is outside the core). -/
def save_st (st : ClientState) (dms : List Person) :
    ClientState × List Person :=
  (st, dms)

/-- `get_company_data` (lines 114-132): catches, logs and re-raises, so the
executor outcome passes through unchanged. -/
def get_company_data (r : Except PyError PyVal) : Except PyError PyVal := r

/-- `get_company_data` threaded through the instance state. -/
def get_company_data_st (st : ClientState) (r : Except PyError PyVal) :
    ClientState × Except PyError PyVal :=
  (st, get_company_data r)

/-! ### Concrete records used by witnesses and counterexamples -/

/-- Sample record: the chief executive of the end-to-end scenario. -/
def empCEO : Person :=
  [("id", PyVal.vStr "e1"), ("firstName", PyVal.vStr "John"),
   ("lastName", PyVal.vStr "Doe"), ("title", PyVal.vStr "CEO")]

/-- Sample record titled "CTO". -/
def empCTO : Person :=
  [("id", PyVal.vStr "e2"), ("firstName", PyVal.vStr "Jane"),
   ("lastName", PyVal.vStr "Smith"), ("title", PyVal.vStr "CTO")]

/-- Sample record titled "Software Engineer". -/
def empEng : Person :=
  [("id", PyVal.vStr "e3"), ("firstName", PyVal.vStr "Bob"),
   ("lastName", PyVal.vStr "Johnson"), ("title", PyVal.vStr "Software Engineer")]

/-- Sample record titled "Director of Marketing". -/
def empDir : Person :=
  [("id", PyVal.vStr "e4"), ("firstName", PyVal.vStr "Alice"),
   ("lastName", PyVal.vStr "Williams"), ("title", PyVal.vStr "Director of Marketing")]

/-- Sample record titled "Sales Rep". -/
def empSales : Person :=
  [("id", PyVal.vStr "e5"), ("firstName", PyVal.vStr "Charlie"),
   ("lastName", PyVal.vStr "Brown"), ("title", PyVal.vStr "Sales Rep")]

/-- The 5-record roster of the end-to-end scenario. -/
def sampleEmployees : List Person := [empCEO, empCTO, empEng, empDir, empSales]

/-- A record whose title value is not a string. -/
def badRecord : Person := [("title", PyVal.vInt 42)]

/-- A record with no title field at all. -/
def eNoTitle : Person := [("name", PyVal.vStr "Bob")]

/-! ### Helper lemmas about the classifier -/

theorem pyLower_titleVal (e : Person) (he : isStrTitle e = true) :
    pyLower (titleVal e) = Except.ok (pyLowerStr (strTitle e)) := by
  unfold isStrTitle strTitle at *
  cases hv : titleVal e <;> simp_all [pyLower]

theorem firstMatch_eq_any (t : String) (ds : List String) :
    firstMatch t ds = ds.any (fun d => pyIn (pyLowerStr d) t) := by
  induction ds with
  | nil => rfl
  | cons d ds ih =>
    rw [firstMatch, List.any_cons, ih]
    by_cases h : pyIn (pyLowerStr d) t = true <;> simp [h]

/-- On a roster whose title values are all strings, the classifier succeeds
and returns exactly the records whose lowered title matches the vocabulary. -/
theorem filter_ok_eq (es : List Person)
    (h : ∀ e ∈ es, isStrTitle e = true) :
    filter_decision_makers es =
      Except.ok (es.filter (fun e => titleMatches (pyLowerStr (strTitle e)))) := by
  induction es with
  | nil => rfl
  | cons e rest ih =>
    have he := h e (List.mem_cons_self e rest)
    have hr := ih (fun x hx => h x (List.mem_cons_of_mem e hx))
    rw [filter_decision_makers, pyLower_titleVal e he, hr, List.filter_cons]

/-- Whatever the roster, a successful classifier output is a sublist of it. -/
theorem filter_sublist (es out : List Person)
    (h : filter_decision_makers es = Except.ok out) : out.Sublist es := by
  induction es generalizing out with
  | nil =>
    have h' : Except.ok ([] : List Person) = Except.ok out := h
    injection h' with h''
    rw [← h'']
  | cons e rest ih =>
    cases hl : pyLower (titleVal e) with
    | error err =>
      rw [filter_decision_makers, hl] at h
      have h' : (Except.error err : Except PyError (List Person)) = Except.ok out := h
      cases h'
    | ok t =>
      cases hr : filter_decision_makers rest with
      | error err =>
        rw [filter_decision_makers, hl, hr] at h
        have h' : (Except.error err : Except PyError (List Person)) = Except.ok out := h
        cases h'
      | ok tail =>
        rw [filter_decision_makers, hl, hr] at h
        have h' : Except.ok (if titleMatches t = true then e :: tail else tail) =
            Except.ok out := h
        injection h' with h''
        by_cases hm : titleMatches t = true
        · rw [if_pos hm] at h''
          rw [← h'']
          exact List.Sublist.cons₂ e (ih tail hr)
        · rw [if_neg hm] at h''
          rw [← h'']
          exact List.Sublist.cons e (ih tail hr)

/-- A record with no `"title"` key gets the default empty-string title. -/
theorem titleVal_of_no_field (e : Person) (h : hasTitleField e = false) :
    titleVal e = PyVal.vStr "" := by
  unfold hasTitleField at h
  unfold titleVal pyDictGet
  cases hf : e.find? (fun p => p.1 == "title") with
  | none => rfl
  | some p => rw [hf] at h; simp at h

/-- No lowered vocabulary keyword occurs in the empty title. -/
theorem vocab_no_hit_empty :
    decision_maker_titles.any (fun kw => pyIn (pyLowerStr kw) (pyLowerStr "")) = false := by
  decide

/-! ### Claim theorems: the title classifier -/

/-- C1: for every roster whose title values are strings and every record in
it, the record is in the output of `filter_decision_makers` iff its title,
case-folded, contains at least one case-folded keyword of the fixed 12-term
vocabulary as a substring; a record with no title field gets the empty-string
title and is never included. -/
theorem C1_filter_membership_iff (es out : List Person)
    (h : ∀ e ∈ es, isStrTitle e = true)
    (hout : filter_decision_makers es = Except.ok out) :
    (∀ e ∈ es, (e ∈ out ↔ vocabHit e = true)) ∧
    (∀ e ∈ es, hasTitleField e = false → e ∉ out) := by
  have hfe := filter_ok_eq es h
  rw [hout] at hfe
  injection hfe with hfe
  constructor
  · intro e he
    simp only [hfe, List.mem_filter, titleMatches, firstMatch_eq_any, vocabHit]
    simp [he]
  · intro e _ hno
    have hs : strTitle e = "" := by
      unfold strTitle
      rw [titleVal_of_no_field e hno]
    intro hmem
    rw [hfe, List.mem_filter] at hmem
    have hp := hmem.2
    unfold titleMatches at hp
    rw [firstMatch_eq_any, hs, vocab_no_hit_empty] at hp
    cases hp

/-- Witness for C1 at a concrete two-record roster. -/
theorem C1_witness :
    (empCEO ∈ ([empCEO] : List Person) ↔ vocabHit empCEO = true) ∧
    eNoTitle ∉ ([empCEO] : List Person) := by
  have h := C1_filter_membership_iff [empCEO, eNoTitle] [empCEO] (by decide) (by rfl)
  exact ⟨h.1 empCEO (List.mem_cons_self _ _),
         h.2 eNoTitle (List.mem_cons_of_mem _ (List.mem_cons_self _ _)) (by decide)⟩

/-- C2: on the roster titled ["CEO", "CTO", "Software Engineer",
"Director of Marketing", "Sales Rep"], the code returns exactly the records
titled "CEO" and "Director of Marketing" (count 2): the title "CTO" contains
no vocabulary keyword ("cto" does not contain "chief"), so the record is NOT
included — against the claim's (and the repository's own tests') expected
3-record output with the CTO record. -/
theorem C2_filter_on_sample_roster :
    filter_decision_makers sampleEmployees = Except.ok [empCEO, empDir] ∧
    vocabHit empCTO = false :=
  ⟨rfl, rfl⟩

/-- C7: every successful classifier output is a subsequence of the input
roster (original order, no reordering), and its records occur at most as
often as in the input (no duplication from multi-keyword matches). -/
theorem C7_filter_subsequence (es out : List Person)
    (hout : filter_decision_makers es = Except.ok out) :
    out.Sublist es ∧ ∀ p : Person → Bool, out.countP p ≤ es.countP p :=
  ⟨filter_sublist es out hout,
   fun p => (filter_sublist es out hout).countP_le p⟩

/-- Witness for C7 at the concrete 5-record roster. -/
theorem C7_witness :
    ([empCEO, empDir] : List Person).Sublist sampleEmployees ∧
    List.countP (fun e => hasTitleField e) [empCEO, empDir] ≤
      List.countP (fun e => hasTitleField e) sampleEmployees :=
  ⟨(C7_filter_subsequence sampleEmployees [empCEO, empDir] rfl).1,
   (C7_filter_subsequence sampleEmployees [empCEO, empDir] rfl).2
     (fun e => hasTitleField e)⟩

/-- C8 counterexample: a record whose title value is the integer 42 makes
`filter_decision_makers` raise AttributeError (Python: `42 .lower()`), so the
classifier is not failure-free over arbitrary field types. -/
theorem C8_counterexample :
    filter_decision_makers [badRecord] =
      Except.error (PyError.attributeError "lower") :=
  rfl

/-- C8 (amended): on every roster whose title values, when present, are
strings, the classifier is a pure total function — it returns a result and
never raises. -/
theorem C8_amended_total (es : List Person)
    (h : ∀ e ∈ es, isStrTitle e = true) :
    ∃ out, filter_decision_makers es = Except.ok out :=
  ⟨_, filter_ok_eq es h⟩

/-- Witness for C8 (amended) at the concrete 5-record roster. -/
theorem C8_witness :
    ∃ out, filter_decision_makers sampleEmployees = Except.ok out :=
  C8_amended_total sampleEmployees (by decide)

/-! ### Claim theorems: the request executor -/

/-- C3: for every transport that fails on every attempt, `_make_request`
with the default ceiling 3 and base delay 2 performs exactly 3 attempts and
exactly 2 sleeps — 2·2¹ = 4 units before attempt 2 and 2·2² = 8 units before
attempt 3, none before attempt 1 — and re-raises the last attempt's
originating error. -/
theorem C3_always_failing_transport (errOf : Nat → ReqErr) :
    make_request 3 2 "GET" (fun n => Except.error (errOf n)) =
      ⟨[4, 8], 3, PyResult.raised (toPyError (errOf 2))⟩ :=
  rfl

/-- C10: for every HTTP verb whose upper-casing is neither "GET" nor "POST",
`_make_request` raises ValueError during the first loop iteration: the error
is not caught by the retry handlers, so no transport call and no backoff
sleep occur. -/
theorem C10_bad_method_valueerror (method : String)
    (transport : Nat → Except ReqErr PyVal)
    (h1 : pyUpperStr method ≠ "GET") (h2 : pyUpperStr method ≠ "POST") :
    make_request 3 2 method transport =
      ⟨[], 0, PyResult.raised (PyError.valueError method)⟩ := by
  have hb : (pyUpperStr method == "GET" || pyUpperStr method == "POST") = false := by
    simp [h1, h2]
  have hr : List.range 3 = [0, 1, 2] := rfl
  rw [make_request, hr, attemptLoop, hb]
  simp

/-- Witness for C10 at the concrete verb "DELETE". -/
theorem C10_witness :
    make_request 3 2 "DELETE" (fun _ => Except.ok PyVal.vNone) =
      ⟨[], 0, PyResult.raised (PyError.valueError "DELETE")⟩ :=
  C10_bad_method_valueerror "DELETE" (fun _ => Except.ok PyVal.vNone)
    (by decide) (by decide)

/-! ### Claim theorems: the pagination walker -/

/-- C4: the pagination walk terminates exactly when a fetched page is empty
or shorter than the page size, and otherwise increments the page index and
continues; a 2-page roster (full page 1, short page 2) costs exactly 2 fetch
calls, and an empty first page costs exactly 1 fetch call and yields the
empty roster. -/
theorem C4_pagination_walk (fetch : Nat → List Person) (page_size : Nat) :
    (∀ fuel page acc calls, fetch page = [] →
      get_all_loop fetch page_size (fuel + 1) page acc calls = (acc, calls + 1)) ∧
    (∀ fuel page acc calls, fetch page ≠ [] → (fetch page).length < page_size →
      get_all_loop fetch page_size (fuel + 1) page acc calls =
        (acc ++ fetch page, calls + 1)) ∧
    (∀ fuel page acc calls, fetch page ≠ [] → ¬ (fetch page).length < page_size →
      get_all_loop fetch page_size (fuel + 1) page acc calls =
        get_all_loop fetch page_size fuel (page + 1) (acc ++ fetch page) (calls + 1)) ∧
    (∀ fuel, (fetch 1).length = page_size → (fetch 2).length < page_size →
      2 ≤ fuel →
      get_all_company_employees fetch page_size fuel = (fetch 1 ++ fetch 2, 2)) ∧
    (∀ fuel, fetch 1 = [] → 1 ≤ fuel →
      get_all_company_employees fetch page_size fuel = ([], 1)) := by
  have step_empty : ∀ fuel page acc calls, fetch page = [] →
      get_all_loop fetch page_size (fuel + 1) page acc calls = (acc, calls + 1) := by
    intro fuel page acc calls hp
    rw [get_all_loop]
    simp [hp]
  have step_short : ∀ fuel page acc calls, fetch page ≠ [] →
      (fetch page).length < page_size →
      get_all_loop fetch page_size (fuel + 1) page acc calls =
        (acc ++ fetch page, calls + 1) := by
    intro fuel page acc calls hp hlen
    rw [get_all_loop]
    simp [hp, hlen]
  have step_full : ∀ fuel page acc calls, fetch page ≠ [] →
      ¬ (fetch page).length < page_size →
      get_all_loop fetch page_size (fuel + 1) page acc calls =
        get_all_loop fetch page_size fuel (page + 1) (acc ++ fetch page)
          (calls + 1) := by
    intro fuel page acc calls hp hlen
    rw [get_all_loop]
    simp [hp, hlen]
  refine ⟨step_empty, step_short, step_full, ?_, ?_⟩
  · intro fuel h1 h2 hf
    obtain ⟨k, rfl⟩ : ∃ k, fuel = k + 2 := ⟨fuel - 2, by omega⟩
    have h1ne : fetch 1 ≠ [] := by
      intro hnil
      rw [hnil] at h1
      simp at h1
      omega
    rw [get_all_company_employees,
        step_full (k + 1) 1 [] 0 h1ne (by rw [h1]; exact lt_irrefl page_size),
        List.nil_append]
    by_cases h2e : fetch 2 = []
    · rw [step_empty k 2 (fetch 1) 1 h2e, h2e, List.append_nil]
    · rw [step_short k 2 (fetch 1) 1 h2e h2]
  · intro fuel h1 hf
    obtain ⟨k, rfl⟩ : ∃ k, fuel = k + 1 := ⟨fuel - 1, by omega⟩
    rw [get_all_company_employees, step_empty k 1 [] 0 h1]

/-- Witness for C4: a concrete 2-page walk (page size 2) and a concrete
empty-first-page walk. -/
theorem C4_witness :
    get_all_company_employees
      (fun p => if p = 1 then [empCEO, empCTO] else if p = 2 then [empDir] else [])
      2 5 = ([empCEO, empCTO] ++ [empDir], 2) ∧
    get_all_company_employees (fun _ => ([] : List Person)) 2 5 = ([], 1) :=
  ⟨(C4_pagination_walk
      (fun p => if p = 1 then [empCEO, empCTO] else if p = 2 then [empDir] else [])
      2).2.2.2.1 5 (by decide) (by decide) (by decide),
   (C4_pagination_walk (fun _ => ([] : List Person)) 2).2.2.2.2 5 rfl
     (by decide)⟩

/-! ### Claim theorems: the single-page accessor -/

/-- C5 counterexample: an error propagated by the request executor IS caught
by the single-page accessor itself, which returns the empty page — refuting
the claim that the error is not caught at this layer and that only the
orchestration layer converts it to an empty page. -/
theorem C5_counterexample :
    get_company_employees
        (Except.error (PyError.requestError "connection timed out")) =
      Except.ok (PyVal.vList []) ∧
    get_company_employees
        (Except.error (PyError.requestError "connection timed out")) ≠
      Except.error (PyError.requestError "connection timed out") := by
  refine ⟨rfl, ?_⟩
  intro h
  cases h

/-- C5 (amended): a page-fetch error surfaced by the request executor is
caught by the single-page accessor itself, which logs it and returns an
empty page; the accessor never propagates an error, so the walk continues or
terminates gracefully. -/
theorem C5_amended_caught_at_accessor (e : PyError)
    (r : Except PyError PyVal) :
    get_company_employees (Except.error e) = Except.ok (PyVal.vList []) ∧
    ∃ v, get_company_employees r = Except.ok v := by
  refine ⟨rfl, ?_⟩
  cases r with
  | error e' => exact ⟨PyVal.vList [], rfl⟩
  | ok response =>
    cases h : pyGet response "results" (PyVal.vList []) with
    | error err =>
      exact ⟨PyVal.vList [],
        by simp [get_company_employees, get_company_employees_body, h]⟩
    | ok v =>
      exact ⟨v, by simp [get_company_employees, get_company_employees_body, h]⟩

/-! ### Claim theorems: the orchestrator -/

/-- C6: the orchestrator fails soft — a resolution error, a falsy/missing
company identifier, or any raising downstream step yields the empty
decision-maker set instead of a propagated exception, and a missing
identifier causes no employee-fetch call and no filter call. -/
theorem C6_extract_fail_soft (companyData : Except PyError PyVal)
    (fetchAll : PyVal → Except PyError (List Person)) :
    (∀ e, companyData = Except.error e →
      extract_decision_makers companyData fetchAll = ([], 0, 0)) ∧
    (∀ cd cid, companyData = Except.ok cd →
      pyGet cd "id" PyVal.vNone = Except.ok cid → pyTruthy cid = false →
      extract_decision_makers companyData fetchAll = ([], 0, 0)) ∧
    (∀ e nf nfl, extract_try companyData fetchAll = Except.error (e, nf, nfl) →
      extract_decision_makers companyData fetchAll = ([], nf, nfl)) := by
  refine ⟨?_, ?_, ?_⟩
  · intro e h
    subst h
    rfl
  · intro cd cid h hget htr
    subst h
    rw [extract_decision_makers, extract_try, hget]
    simp [htr]
  · intro e nf nfl h
    rw [extract_decision_makers, h]

/-- Witness for C6: a company payload with no "id" field, and a failed
resolution, both yield the empty result with zero downstream calls. -/
theorem C6_witness :
    extract_decision_makers
        (Except.ok (PyVal.vDict [("name", PyVal.vStr "Acme")]))
        (fun _ => Except.ok []) = ([], 0, 0) ∧
    extract_decision_makers
        (Except.error (PyError.requestError "dns failure"))
        (fun _ => Except.ok []) = ([], 0, 0) :=
  ⟨(C6_extract_fail_soft (Except.ok (PyVal.vDict [("name", PyVal.vStr "Acme")]))
      (fun _ => Except.ok [])).2.1 (PyVal.vDict [("name", PyVal.vStr "Acme")])
      PyVal.vNone rfl rfl rfl,
   (C6_extract_fail_soft (Except.error (PyError.requestError "dns failure"))
      (fun _ => Except.ok [])).1 (PyError.requestError "dns failure") rfl⟩

/-! ### Claim theorems: credential immutability -/

/-- C9: the credential supplied at construction is never mutated: after
`__init__` the stored key equals the supplied one, the Authorization header
is derived from it, and every operation returns the instance state
unchanged. -/
theorem C9_credential_immutable (k method : String)
    (transport : Nat → Except ReqErr PyVal) (r r' : Except PyError PyVal)
    (fetch : Nat → List Person) (fuel : Nat) (es : List Person)
    (companyData : Except PyError PyVal)
    (fetchAll : PyVal → Except PyError (List Person)) (dms : List Person) :
    (initClient k).api_key = k ∧
    headerOf (initClient k) "Authorization" = some ("Bearer " ++ k) ∧
    (make_request_st (initClient k) method transport).1 = initClient k ∧
    (get_company_data_st (initClient k) r').1 = initClient k ∧
    (get_company_employees_st (initClient k) r).1 = initClient k ∧
    (get_all_company_employees_st (initClient k) fetch fuel).1 = initClient k ∧
    (filter_decision_makers_st (initClient k) es).1 = initClient k ∧
    (extract_decision_makers_st (initClient k) companyData fetchAll).1 =
      initClient k ∧
    (save_st (initClient k) dms).1 = initClient k :=
  ⟨rfl, rfl, rfl, rfl, rfl, rfl, rfl, rfl, rfl⟩

end LinkedInExtractor
